import Mathlib

/-!
Shallow embedding of the adaptive interview engine of
`crazyring123/excel-mock-interviewer` (`src/app.py`, class `ExcelInterviewer`),
together with proofs of the behavioural properties claimed for it.

Modelling conventions:
* Python dict-shaped values become Lean structures with the same field names.
* The in-memory session store lookup `self.sessions.get(session_id)` is modelled
  by passing an `Option Session` to each operation (`none` = unknown id).
* Time (`datetime.now().isoformat()`) is modelled by an explicit `now : Nat`
  parameter (seconds); duration arithmetic is done in `ℚ` minutes.
* The remote (Groq) evaluator is out of scope per the spec; its outcome is an
  explicit `Option Evaluation` argument (`none` = unavailable / failed, which in
  the source triggers the deterministic fallback).
* `random.choice(l)` is modelled by an explicit `pick : Nat` argument indexing
  `l` at `pick % l.length`, so theorems quantify over every possible choice.
* Scores are integers (`Int`); the success-rate and percentage divisions are
  exact rational divisions.  For every state reachable from the embedded
  question bank the float comparisons of the source agree with the rational
  ones, because the rationals involved have denominators far too small to fall
  inside a double-precision rounding error of the thresholds.
-/

/-- A question record as produced by `ExcelInterviewer.load_questions`
(one row of the embedded CSV). -/
structure Question where
  category : String
  difficulty : Nat
  question : String
  ideal_answer : String
  points : Nat
deriving DecidableEq, Repr

/-- Row 1 of the embedded CSV question bank. -/
def bankQ0 : Question :=
  { category := "Basic", difficulty := 1,
    question := "Explain the difference between VLOOKUP and INDEX-MATCH functions.",
    ideal_answer := "VLOOKUP searches vertically in first column and returns value from specified column. INDEX-MATCH is more flexible - INDEX returns value at intersection, MATCH finds position. INDEX-MATCH can look left, handles column insertions better, and is generally more robust.",
    points := 20 }

/-- Row 2 of the embedded CSV question bank. -/
def bankQ1 : Question :=
  { category := "Basic", difficulty := 1,
    question := "How would you remove duplicates from a dataset in Excel?",
    ideal_answer := "Multiple methods: 1) Data tab > Remove Duplicates tool, 2) Advanced Filter with \x27Unique records only\x27, 3) Using formulas like UNIQUE() function in newer Excel versions. Remove Duplicates is most common for simple cases.",
    points := 15 }

/-- Row 3 of the embedded CSV question bank. -/
def bankQ2 : Question :=
  { category := "Intermediate", difficulty := 2,
    question := "You have sales data with dates, regions, and amounts. How would you create a summary showing total sales by month and region?",
    ideal_answer := "Create a Pivot Table: 1) Select data, 2) Insert > PivotTable, 3) Drag Date to Rows (group by month), Region to Columns, Amount to Values (SUM). Alternatively use SUMIFS with date criteria or Power Query for complex scenarios.",
    points := 25 }

/-- Row 4 of the embedded CSV question bank. -/
def bankQ3 : Question :=
  { category := "Intermediate", difficulty := 2,
    question := "Explain conditional formatting and give a practical example.",
    ideal_answer := "Conditional formatting applies visual formatting based on cell values or formulas. Example: Highlight cells >1000 in green, <500 in red for sales targets. Use Home > Conditional Formatting, choose rule type, set conditions and formatting. Useful for data bars, color scales, icon sets.",
    points := 20 }

/-- Row 5 of the embedded CSV question bank. -/
def bankQ4 : Question :=
  { category := "Advanced", difficulty := 3,
    question := "How would you automate a repetitive task in Excel?",
    ideal_answer := "Multiple approaches: 1) Record Macro (Developer tab), 2) Write VBA code for complex logic, 3) Use Power Query for data transformations, 4) Power Automate for workflow automation. Macros best for repetitive formatting/calculations, Power Query for data processing.",
    points := 30 }

/-- Row 6 of the embedded CSV question bank. -/
def bankQ5 : Question :=
  { category := "Advanced", difficulty := 3,
    question := "Explain dynamic arrays and spill ranges in modern Excel.",
    ideal_answer := "Dynamic arrays automatically resize based on formula results. Functions like FILTER, SORT, UNIQUE return arrays that \x27spill\x27 into adjacent cells. Spill range is the area occupied by dynamic array. Use # to reference entire spill range. Enables more powerful, flexible formulas.",
    points := 25 }

/-- Row 7 of the embedded CSV question bank. -/
def bankQ6 : Question :=
  { category := "Basic", difficulty := 1,
    question := "What\x27s the difference between relative and absolute cell references?",
    ideal_answer := "Relative references (A1) change when copied to different cells. Absolute references ($A$1) stay fixed. Mixed references ($A1 or A$1) fix either row or column. Use F4 to toggle reference types. Critical for formulas that need fixed reference points.",
    points := 15 }

/-- Row 8 of the embedded CSV question bank. -/
def bankQ7 : Question :=
  { category := "Intermediate", difficulty := 2,
    question := "How would you handle errors in Excel formulas?",
    ideal_answer := "Use error handling functions: IFERROR, ISERROR, IFNA. Example: =IFERROR(VLOOKUP(A1,data,2,FALSE),\x27Not Found\x27). Also use data validation to prevent errors, check for #N/A, #VALUE!, #DIV/0! etc. Power Query also has error handling capabilities.",
    points := 20 }

/-- The value of `ExcelInterviewer.load_questions`: the eight CSV rows in
file order. -/
def load_questions : List Question :=
  [bankQ0, bankQ1, bankQ2, bankQ3, bankQ4, bankQ5, bankQ6, bankQ7]

/-- The configuration fields of `ExcelInterviewer.__init__` that the engine
logic reads (the LLM/weight fields only feed the remote prompt, which is out
of scope). -/
structure Config where
  max_questions : Nat
  min_response_length : Nat
deriving DecidableEq, Repr

/-- The environment-variable defaults: `MAX_QUESTIONS=5`,
`MIN_RESPONSE_LENGTH=5`. -/
def defaultConfig : Config :=
  { max_questions := 5, min_response_length := 5 }

/-- Session lifecycle status strings used by the source
(`'active'` / `'completed'`). -/
inductive Status where
  | active
  | completed
deriving DecidableEq, Repr

/-- An evaluation result dict: produced by the short-circuit branch of
`evaluate_response`, by `evaluate_response_with_groq`, or by
`evaluate_response_fallback`. -/
structure Evaluation where
  score : Int
  feedback : String
  strengths : List String
  improvements : List String
deriving DecidableEq, Repr

/-- One entry of `session['responses']`. -/
structure AnswerRecord where
  question : String
  response : String
  evaluation : Evaluation
  timestamp : Nat
deriving DecidableEq, Repr

/-- A session dict as created by `ExcelInterviewer.create_session`. -/
structure Session where
  session_id : String
  current_question : Nat
  total_score : Int
  max_score : Nat
  responses : List AnswerRecord
  difficulty_level : Nat
  questions_asked : List Question
  started_at : Nat
  completed_at : Option Nat
  status : Status
deriving DecidableEq, Repr

/-- `create_session`: the fresh session stored under the new id. -/
def create_session (session_id : String) (now : Nat) : Session :=
  { session_id := session_id
    current_question := 0
    total_score := 0
    max_score := 0
    responses := []
    difficulty_level := 1
    questions_asked := []
    started_at := now
    completed_at := none
    status := Status.active }

/-- The dict returned by `get_next_question`. -/
structure QuestionView where
  question_number : Nat
  question : String
  category : String
  difficulty : Nat
  total_questions : Nat
deriving DecidableEq, Repr

/-- The candidate filter of `get_next_question`:
questions with `difficulty <= difficulty_level + 1` that are not already in
`questions_asked`. -/
def availableQuestions (questions : List Question) (s : Session) : List Question :=
  questions.filter fun q =>
    decide (q.difficulty ≤ s.difficulty_level + 1) && !(decide (q ∈ s.questions_asked))

/-- The adaptive difficulty update of `get_next_question` for ordinals ≥ 1:
raise (capped at 3) when the success rate exceeds 0.8, clamp at floor 1 when it
is below 0.4, otherwise keep. -/
def updated_level (s : Session) : Nat :=
  let success_rate : ℚ :=
    if 0 < s.max_score then (s.total_score : ℚ) / (s.max_score : ℚ) else 0
  if (0.8 : ℚ) < success_rate then min 3 (s.difficulty_level + 1)
  else if success_rate < (0.4 : ℚ) then max 1 s.difficulty_level
  else s.difficulty_level

/-- Model of `random.choice l`: the element at index `pick % l.length`
(`d` is a default that is only read when `l` is empty, which no call site
allows). -/
def pickFrom (l : List Question) (d : Question) (pick : Nat) : Question :=
  l.getD (pick % l.length) d

/-- The committing tail of `get_next_question`: append the chosen question,
advance the ordinal, add its points to the cumulative maximum, and build the
returned view dict. -/
def ask (cfg : Config) (s : Session) (question : Question) : QuestionView × Session :=
  let s1 : Session :=
    { s with questions_asked := s.questions_asked ++ [question]
             current_question := s.current_question + 1
             max_score := s.max_score + question.points }
  ({ question_number := s1.current_question
     question := question.question
     category := question.category
     difficulty := question.difficulty
     total_questions := cfg.max_questions }, s1)

/-- `get_next_question`: returns the next question view and the updated
session, or `none` when the session is unknown / not active, the candidate
pool is empty, or the ordinal has reached `max_questions`. -/
def get_next_question (cfg : Config) (questions : List Question)
    (sess : Option Session) (pick : Nat) : Option (QuestionView × Session) :=
  match sess with
  | none => none
  | some s =>
    if s.status = Status.active then
      match availableQuestions questions s with
      | [] => none
      | a :: rest =>
        if cfg.max_questions ≤ s.current_question then none
        else if s.current_question = 0 then
          some (ask cfg s (((a :: rest).find? fun q => q.difficulty == 1).getD a))
        else
          match (a :: rest).filter fun q => q.difficulty == updated_level s with
          | [] =>
            some (ask cfg { s with difficulty_level := updated_level s }
              (pickFrom (a :: rest) a pick))
          | b :: rest2 =>
            some (ask cfg { s with difficulty_level := updated_level s }
              (pickFrom (b :: rest2) b pick))
    else none

/-- Word counting as done by Python `str.split()` (split on whitespace runs,
empty pieces dropped): counts maximal non-whitespace runs. -/
def wordsAux : List Char → Bool → Nat
  | [], _ => 0
  | c :: cs, inWord =>
    if c.isWhitespace then wordsAux cs false
    else (if inWord then 0 else 1) + wordsAux cs true

/-- `len(response.split())`. -/
def wordCount (s : String) : Nat :=
  wordsAux s.data false

/-- Python `str.lower()` (ASCII-relevant part). -/
def lowerStr (s : String) : String :=
  String.mk (s.data.map Char.toLower)

/-- Python substring containment `pat in text`. -/
def strHasSub (text pat : String) : Bool :=
  (List.range (text.data.length + 1)).any fun i =>
    (text.data.drop i).take pat.data.length == pat.data

/-- The fixed topic → keyword table of `evaluate_response_fallback`
(Python dict literal; iteration follows insertion order). -/
def technical_keywords : List (String × List String) :=
  [("vlookup", ["vlookup", "lookup", "vertical"]),
   ("pivot", ["pivot", "table", "summarize", "group"]),
   ("formula", ["formula", "function", "calculate"]),
   ("formatting", ["format", "conditional", "highlight"]),
   ("reference", ["reference", "absolute", "relative", "$"]),
   ("macro", ["macro", "vba", "automate", "script"])]

/-- `evaluate_response_fallback`: the deterministic keyword/length heuristic.
The two feedback/strengths assignments of the same Python branch are written
as two `if` chains over the same conditions. -/
def evaluate_response_fallback (response : String) (current_question : Question) :
    Evaluation :=
  let response_length := wordCount response
  let base_score := min current_question.points (max 1 (response_length / 5))
  let response_lower := lowerStr response
  let question_lower := lowerStr current_question.question
  let found := technical_keywords.filter fun tk =>
    (tk.2.any fun kw => strHasSub question_lower kw) &&
    (tk.2.any fun kw => strHasSub response_lower kw)
  let keyword_bonus := 2 * found.length
  let final_score := min current_question.points (base_score + keyword_bonus)
  let feedback :=
    if (current_question.points : ℚ) * (0.8 : ℚ) ≤ (final_score : ℚ) then
      "Good comprehensive answer covering key concepts."
    else if (current_question.points : ℚ) * (0.6 : ℚ) ≤ (final_score : ℚ) then
      "Solid answer with room for more detail."
    else
      "Answer needs more technical detail and examples."
  let strengths :=
    if (current_question.points : ℚ) * (0.8 : ℚ) ≤ (final_score : ℚ) then
      ["Covers main points", "Good technical understanding"]
    else if (current_question.points : ℚ) * (0.6 : ℚ) ≤ (final_score : ℚ) then
      ["Basic concepts covered"]
    else
      ["Response provided"]
  let improvements :=
    (if response_length < 20 then ["Provide more detailed explanations"] else []) ++
    (if found.isEmpty then ["Include more technical terminology"] else [])
  let improvements := if improvements = [] then ["Consider adding practical examples"] else improvements
  { score := (final_score : Int)
    feedback := feedback
    strengths := strengths
    improvements := improvements }

/-- The feedback string of the below-minimum-word-count short circuit of
`evaluate_response`. -/
def short_feedback (cfg : Config) : String :=
  "Please provide a more detailed response (minimum " ++
    toString cfg.min_response_length ++ " words)."

/-- The zero-score evaluation returned by the short circuit of
`evaluate_response`. -/
def shortEvaluation (cfg : Config) : Evaluation :=
  { score := 0
    feedback := short_feedback cfg
    strengths := []
    improvements := ["Provide more detailed explanations"] }

/-- The `evaluation` variable of `evaluate_response` past the short circuit:
the remote result when one was produced, else the deterministic fallback. -/
def chosenEvaluation (groq : Option Evaluation) (response : String)
    (current_question : Question) : Evaluation :=
  match groq with
  | some e => e
  | none => evaluate_response_fallback response current_question

/-- `evaluate_response`: `none` when the session is unknown or no question has
been asked yet; a zero-score evaluation (session untouched) when the response
is shorter than `min_response_length` words; otherwise the remote evaluation if
one was produced (`groq = some e`), else the deterministic fallback, appended
to the history with its score added to the cumulative score. -/
def evaluate_response (cfg : Config) (sess : Option Session) (response : String)
    (groq : Option Evaluation) (now : Nat) : Option (Evaluation × Session) :=
  match sess with
  | none => none
  | some s =>
    match s.questions_asked.getLast? with
    | none => none
    | some current_question =>
      if wordCount response < cfg.min_response_length then
        some (shortEvaluation cfg, s)
      else
        some (chosenEvaluation groq response current_question,
          { s with
            responses := s.responses ++
              [{ question := current_question.question
                 response := response
                 evaluation := chosenEvaluation groq response current_question
                 timestamp := now }]
            total_score := s.total_score +
              (chosenEvaluation groq response current_question).score })

/-- Python `round(x, 1)` on the exact rational value: round to one decimal
place, ties to even. -/
def round1 (x : ℚ) : ℚ :=
  let y := 10 * x
  let n := Rat.floor y
  let frac := y - (n : ℚ)
  let r : Int :=
    if frac < (1 : ℚ) / 2 then n
    else if (1 : ℚ) / 2 < frac then n + 1
    else if n % 2 = 0 then n else n + 1
  (r : ℚ) / 10

/-- `ExcelInterviewer._calculate_duration`: minutes between start and
completion, rounded to one decimal; the source's `except` clause (hit when
`completed_at` is unset) yields 0. -/
def calculate_duration (s : Session) : ℚ :=
  match s.completed_at with
  | some endTime => round1 (((endTime : ℚ) - (s.started_at : ℚ)) / 60)
  | none => 0

/-- The proficiency banding of `generate_final_report`. -/
def proficiency_of (percentage : ℚ) : String :=
  if 80 ≤ percentage then "Advanced"
  else if 60 ≤ percentage then "Intermediate"
  else if 40 ≤ percentage then "Basic"
  else "Beginner"

/-- `ExcelInterviewer._get_hiring_recommendation`. -/
def hiring_recommendation (percentage : ℚ) : String :=
  if 75 ≤ percentage then "Strong Hire - Excellent Excel skills demonstrated"
  else if 60 ≤ percentage then "Hire - Good Excel foundation with room for growth"
  else if 45 ≤ percentage then "Consider - Basic skills present, may need training"
  else "No Hire - Insufficient Excel proficiency for role requirements"

/-- The dict returned by `generate_final_report`.  The narrative `report`
string of the source is presentation text assembled purely from the fields
below (plus the per-question points of `questions_asked`) and is not modelled
separately. -/
structure Report where
  session_id : String
  overall_score : Int
  max_possible_score : Nat
  percentage : ℚ
  proficiency_level : String
  questions_answered : Nat
  detailed_responses : List AnswerRecord
  duration_minutes : ℚ
  recommendation : String
deriving DecidableEq, Repr

/-- The session mutation done first by `generate_final_report` on every call:
mark completed and stamp the completion time with the current time. -/
def completed_session (s : Session) (now : Nat) : Session :=
  { s with status := Status.completed, completed_at := some now }

/-- The `overall_percentage` of `generate_final_report`
(0 when the maximum score is 0, guarding the division). -/
def report_percentage (s : Session) : ℚ :=
  if 0 < s.max_score then (s.total_score : ℚ) / (s.max_score : ℚ) * 100 else 0

/-- The result dict of `generate_final_report`, recomputed from the (already
completion-stamped) session state. -/
def build_report (s1 : Session) : Report :=
  { session_id := s1.session_id
    overall_score := s1.total_score
    max_possible_score := s1.max_score
    percentage := report_percentage s1
    proficiency_level := proficiency_of (report_percentage s1)
    questions_answered := s1.responses.length
    detailed_responses := s1.responses
    duration_minutes := calculate_duration s1
    recommendation := hiring_recommendation (report_percentage s1) }

/-- `generate_final_report`: `none` for an unknown session; otherwise it marks
the session completed, stamps `completed_at` with the current time
(unconditionally, on every call), and recomputes the report from the session
state. -/
def generate_final_report (cfg : Config) (sess : Option Session) (now : Nat) :
    Option (Report × Session) :=
  match sess with
  | none => none
  | some s =>
    some (build_report (completed_session s now), completed_session s now)

/-- One engine operation applied to a stored session, with all external
inputs (random pick, remote-evaluator outcome, wall clock) explicit. -/
inductive Op where
  | question (pick : Nat)
  | answer (response : String) (groq : Option Evaluation) (now : Nat)
  | report (now : Nat)
deriving Repr

/-- Apply one operation to a stored session: the session is left unchanged
exactly when the source returns `None` without mutating it. -/
def applyOp (cfg : Config) (questions : List Question) (s : Session) : Op → Session
  | Op.question pick =>
    match get_next_question cfg questions (some s) pick with
    | some (_, s1) => s1
    | none => s
  | Op.answer response groq now =>
    match evaluate_response cfg (some s) response groq now with
    | some (_, s1) => s1
    | none => s
  | Op.report now =>
    match generate_final_report cfg (some s) now with
    | some (_, s1) => s1
    | none => s

/-- Run a sequence of engine operations on a stored session. -/
def runOps (cfg : Config) (questions : List Question) (s : Session)
    (ops : List Op) : Session :=
  ops.foldl (applyOp cfg questions) s

/-- Sum of the point values of a list of questions. -/
def sumPoints (l : List Question) : Nat :=
  (l.map Question.points).sum

/-- `List.getD` at an in-range index returns an element of the list. -/
lemma getD_mem_of_lt : ∀ (l : List Question) (n : Nat) (d : Question),
    n < l.length → l.getD n d ∈ l
  | a :: _, 0, _, _ => List.mem_cons_self _ _
  | _ :: as, n + 1, d, h => by
    rw [List.getD_cons_succ]
    exact List.mem_cons_of_mem _ (getD_mem_of_lt as n d (by simpa using h))

/-- The modelled `random.choice` picks an element of a non-empty list. -/
lemma pickFrom_mem (l : List Question) (d : Question) (pick : Nat) (h : l ≠ []) :
    pickFrom l d pick ∈ l :=
  getD_mem_of_lt l _ d (Nat.mod_lt _ (List.length_pos.mpr h))

/-- Membership in the candidate pool unfolded into its two conditions. -/
lemma mem_availableQuestions {questions : List Question} {s : Session} {q : Question} :
    q ∈ availableQuestions questions s ↔
      q ∈ questions ∧ q.difficulty ≤ s.difficulty_level + 1 ∧ q ∉ s.questions_asked := by
  simp [availableQuestions, List.mem_filter, and_assoc]

/-- Characterization of a successful `get_next_question` call: the result is
`ask` applied to some candidate from the pool, with the difficulty either kept
(first question) or adaptively updated (subsequent questions). -/
lemma get_next_question_some {cfg : Config} {questions : List Question}
    {s : Session} {pick : Nat} {v : QuestionView} {s' : Session}
    (h : get_next_question cfg questions (some s) pick = some (v, s')) :
    ∃ q l, q ∈ availableQuestions questions s ∧
      (l = s.difficulty_level ∨ l = updated_level s) ∧
      (v, s') = ask cfg { s with difficulty_level := l } q := by
  simp only [get_next_question] at h
  split at h
  case isTrue hact =>
    split at h
    case h_1 heq => exact absurd h (by simp)
    case h_2 a rest heq =>
      split at h
      case isTrue => exact absurd h (by simp)
      case isFalse hmax =>
        split at h
        case isTrue hzero =>
          refine ⟨((a :: rest).find? fun q => q.difficulty == 1).getD a,
            s.difficulty_level, ?_, Or.inl rfl, ?_⟩
          · rw [heq]
            cases hf : (a :: rest).find? fun q => q.difficulty == 1 with
            | none => simp [hf]
            | some q => simpa [hf] using List.mem_of_find?_eq_some hf
          · have hs : ({ s with difficulty_level := s.difficulty_level } : Session) = s := rfl
            rw [hs]
            exact (Option.some.inj h).symm
        case isFalse hzero =>
          split at h
          case h_1 hfil =>
            refine ⟨pickFrom (a :: rest) a pick, updated_level s, ?_, Or.inr rfl,
              (Option.some.inj h).symm⟩
            rw [heq]
            exact pickFrom_mem _ _ _ (by simp)
          case h_2 b rest2 hfil =>
            refine ⟨pickFrom (b :: rest2) b pick, updated_level s, ?_, Or.inr rfl,
              (Option.some.inj h).symm⟩
            rw [heq]
            have hb2 : pickFrom (b :: rest2) b pick ∈
                List.filter (fun q => q.difficulty == updated_level s) (a :: rest) := by
              rw [hfil]
              exact pickFrom_mem _ _ _ (by simp)
            exact List.mem_of_mem_filter hb2
  case isFalse => exact absurd h (by simp)

/-- A successful `evaluate_response` call never touches the question ordinal,
the asked-question list, the cumulative maximum, the difficulty tier, or the
lifecycle status. -/
lemma evaluate_response_some {cfg : Config} {s : Session} {response : String}
    {groq : Option Evaluation} {now : Nat} {e : Evaluation} {s' : Session}
    (h : evaluate_response cfg (some s) response groq now = some (e, s')) :
    s'.questions_asked = s.questions_asked ∧ s'.max_score = s.max_score ∧
    s'.current_question = s.current_question ∧
    s'.difficulty_level = s.difficulty_level ∧ s'.status = s.status := by
  simp only [evaluate_response] at h
  split at h
  case h_1 => exact absurd h (by simp)
  case h_2 cq hlast =>
    split at h
    case isTrue =>
      have hp := Option.some.inj h
      injection hp with h1 h2
      subst h2
      exact ⟨rfl, rfl, rfl, rfl, rfl⟩
    case isFalse =>
      have hp := Option.some.inj h
      injection hp with h1 h2
      subst h2
      exact ⟨rfl, rfl, rfl, rfl, rfl⟩

/-- A successful `generate_final_report` call only marks the session completed
and stamps the completion time. -/
lemma generate_final_report_some {cfg : Config} {s : Session} {now : Nat}
    {r : Report} {s' : Session}
    (h : generate_final_report cfg (some s) now = some (r, s')) :
    s' = completed_session s now ∧ r = build_report (completed_session s now) := by
  simp only [generate_final_report] at h
  have hp := Option.some.inj h
  exact ⟨(congrArg Prod.snd hp).symm, (congrArg Prod.fst hp).symm⟩

/-- The adaptive update never lowers the tier and keeps it within `[1, 3]`. -/
lemma updated_level_bounds {s : Session} (h1 : 1 ≤ s.difficulty_level)
    (h3 : s.difficulty_level ≤ 3) :
    s.difficulty_level ≤ updated_level s ∧ updated_level s ≤ 3 := by
  simp only [updated_level, Nat.min_def, Nat.max_def]
  repeat' split
  all_goals omega

/-- The bookkeeping invariant of claim C4, as a predicate on sessions. -/
def scoreInvariant (s : Session) : Prop :=
  s.max_score = sumPoints s.questions_asked ∧
  s.questions_asked.length = s.current_question

lemma sumPoints_append (l : List Question) (q : Question) :
    sumPoints (l ++ [q]) = sumPoints l + q.points := by
  simp [sumPoints]

/-- Every engine operation preserves the bookkeeping invariant. -/
lemma applyOp_scoreInvariant (cfg : Config) (questions : List Question)
    (s : Session) (op : Op) (hinv : scoreInvariant s) :
    scoreInvariant (applyOp cfg questions s op) := by
  cases op with
  | question pick =>
    cases h : get_next_question cfg questions (some s) pick with
    | none => simpa [applyOp, h] using hinv
    | some p =>
      obtain ⟨v, s'⟩ := p
      obtain ⟨q, l, _, _, heq⟩ := get_next_question_some h
      injection heq with hv hs'
      simp only [applyOp, h]
      subst hs'
      refine ⟨?_, ?_⟩
      · show s.max_score + q.points = sumPoints (s.questions_asked ++ [q])
        rw [sumPoints_append, hinv.1]
      · show (s.questions_asked ++ [q]).length = s.current_question + 1
        rw [List.length_append, hinv.2]
        rfl
  | answer response groq now =>
    cases h : evaluate_response cfg (some s) response groq now with
    | none => simpa [applyOp, h] using hinv
    | some p =>
      obtain ⟨e, s'⟩ := p
      obtain ⟨hq, hm, hc, _, _⟩ := evaluate_response_some h
      simpa [applyOp, h, scoreInvariant, hq, hm, hc] using hinv
  | report now =>
    cases h : generate_final_report cfg (some s) now with
    | none => simpa [applyOp, h] using hinv
    | some p =>
      obtain ⟨r, s'⟩ := p
      obtain ⟨hs', _⟩ := generate_final_report_some h
      simp only [applyOp, h]
      subst hs'
      exact hinv

/-- Every engine operation keeps the difficulty tier within `[1, 3]` and
never lowers it. -/
lemma applyOp_difficulty (cfg : Config) (questions : List Question)
    (s : Session) (op : Op) (h1 : 1 ≤ s.difficulty_level)
    (h3 : s.difficulty_level ≤ 3) :
    s.difficulty_level ≤ (applyOp cfg questions s op).difficulty_level ∧
    (applyOp cfg questions s op).difficulty_level ≤ 3 := by
  cases op with
  | question pick =>
    cases h : get_next_question cfg questions (some s) pick with
    | none => simp [applyOp, h, h3]
    | some p =>
      obtain ⟨v, s'⟩ := p
      obtain ⟨q, l, _, hl, heq⟩ := get_next_question_some h
      injection heq with hv hs'
      simp only [applyOp, h]
      subst hs'
      show s.difficulty_level ≤ l ∧ l ≤ 3
      rcases hl with rfl | rfl
      · exact ⟨le_refl _, h3⟩
      · exact updated_level_bounds h1 h3
  | answer response groq now =>
    cases h : evaluate_response cfg (some s) response groq now with
    | none => simp [applyOp, h, h3]
    | some p =>
      obtain ⟨e, s'⟩ := p
      obtain ⟨_, _, _, hd, _⟩ := evaluate_response_some h
      simp [applyOp, h, hd, h3]
  | report now =>
    cases h : generate_final_report cfg (some s) now with
    | none => simp [applyOp, h, h3]
    | some p =>
      obtain ⟨r, s'⟩ := p
      obtain ⟨hs', _⟩ := generate_final_report_some h
      simp only [applyOp, h]
      subst hs'
      exact ⟨le_refl _, h3⟩

/-- Running any operation sequence preserves the bookkeeping invariant. -/
lemma runOps_scoreInvariant (cfg : Config) (questions : List Question)
    (ops : List Op) (s : Session) (hinv : scoreInvariant s) :
    scoreInvariant (runOps cfg questions s ops) := by
  induction ops generalizing s with
  | nil => exact hinv
  | cons op rest ih =>
    exact ih _ (applyOp_scoreInvariant cfg questions s op hinv)

/-- Running any operation sequence keeps the difficulty tier within `[1, 3]`
and never lowers it. -/
lemma runOps_difficulty (cfg : Config) (questions : List Question)
    (ops : List Op) (s : Session) (h1 : 1 ≤ s.difficulty_level)
    (h3 : s.difficulty_level ≤ 3) :
    s.difficulty_level ≤ (runOps cfg questions s ops).difficulty_level ∧
    (runOps cfg questions s ops).difficulty_level ≤ 3 := by
  induction ops generalizing s with
  | nil => exact ⟨le_refl _, h3⟩
  | cons op rest ih =>
    obtain ⟨ha, hb⟩ := applyOp_difficulty cfg questions s op h1 h3
    obtain ⟨hc, hd⟩ := ih _ (le_trans h1 ha) hb
    exact ⟨le_trans ha hc, hd⟩

lemma runOps_append (cfg : Config) (questions : List Question) (s : Session)
    (l1 l2 : List Op) :
    runOps cfg questions s (l1 ++ l2) = runOps cfg questions (runOps cfg questions s l1) l2 :=
  List.foldl_append _ _ _ _

/-- C4: for every session and every sequence of engine operations applied
after creation, the cumulative maximum score equals the sum of the point
values of the questions in `questions_asked`, and the length of
`questions_asked` equals the current question ordinal. -/
theorem c4_max_score_is_sum_of_asked_points (cfg : Config)
    (questions : List Question) (sid : String) (now : Nat) (ops : List Op) :
    (runOps cfg questions (create_session sid now) ops).max_score =
      sumPoints (runOps cfg questions (create_session sid now) ops).questions_asked ∧
    (runOps cfg questions (create_session sid now) ops).questions_asked.length =
      (runOps cfg questions (create_session sid now) ops).current_question :=
  runOps_scoreInvariant cfg questions ops _ ⟨rfl, rfl⟩

/-- C5: for every session and every sequence of engine operations, the
difficulty tier stays within `[1, 3]` at every step of the trace and is
monotonically non-decreasing along the trace. -/
theorem c5_difficulty_monotone_and_bounded (cfg : Config)
    (questions : List Question) (sid : String) (now : Nat) (ops : List Op)
    (i j : Nat) (hij : i ≤ j) :
    1 ≤ (runOps cfg questions (create_session sid now) (ops.take i)).difficulty_level ∧
    (runOps cfg questions (create_session sid now) (ops.take i)).difficulty_level ≤ 3 ∧
    (runOps cfg questions (create_session sid now) (ops.take i)).difficulty_level ≤
      (runOps cfg questions (create_session sid now) (ops.take j)).difficulty_level := by
  have base1 : 1 ≤ (create_session sid now).difficulty_level := le_refl 1
  have base3 : (create_session sid now).difficulty_level ≤ 3 := by
    show (1 : Nat) ≤ 3
    omega
  obtain ⟨hi_mono, hi3⟩ := runOps_difficulty cfg questions (ops.take i) _ base1 base3
  have h1i : 1 ≤ (runOps cfg questions (create_session sid now) (ops.take i)).difficulty_level :=
    le_trans base1 hi_mono
  have hj : i + (j - i) = j := Nat.add_sub_cancel' hij
  have hseg : ops.take j = ops.take i ++ (ops.drop i).take (j - i) := by
    conv_lhs => rw [← hj]
    exact List.take_add ops i (j - i)
  obtain ⟨hmono, _⟩ := runOps_difficulty cfg questions ((ops.drop i).take (j - i)) _ h1i hi3
  refine ⟨h1i, hi3, ?_⟩
  rw [hseg, runOps_append]
  exact hmono

/-- Witness for C5 at a concrete trace: one question drawn from the real bank
with the default configuration. -/
theorem c5_difficulty_monotone_and_bounded_witness :
    1 ≤ (runOps defaultConfig load_questions (create_session "sid" 0)
          ([Op.question 0].take 0)).difficulty_level ∧
    (runOps defaultConfig load_questions (create_session "sid" 0)
          ([Op.question 0].take 0)).difficulty_level ≤ 3 ∧
    (runOps defaultConfig load_questions (create_session "sid" 0)
          ([Op.question 0].take 0)).difficulty_level ≤
      (runOps defaultConfig load_questions (create_session "sid" 0)
          ([Op.question 0].take 1)).difficulty_level :=
  c5_difficulty_monotone_and_bounded defaultConfig load_questions "sid" 0
    [Op.question 0] 0 1 (by omega)

/-- The candidate pool is empty exactly when every bank question inside the
difficulty window has already been asked. -/
lemma availableQuestions_eq_nil_iff {questions : List Question} {s : Session} :
    availableQuestions questions s = [] ↔
      ∀ q ∈ questions, q.difficulty ≤ s.difficulty_level + 1 → q ∈ s.questions_asked := by
  rw [List.eq_nil_iff_forall_not_mem]
  constructor
  · intro h q hq hd
    by_contra hmem
    exact h q (mem_availableQuestions.mpr ⟨hq, hd, hmem⟩)
  · intro h q hq
    obtain ⟨h1, h2, h3⟩ := mem_availableQuestions.mp hq
    exact h3 (h q h1 h2)

/-- C6: for a stored active session, `get_next_question` returns `none` if and
only if the ordinal has reached the configured maximum or no bank question
with difficulty at most `tier + 1` remains outside `questions_asked`. -/
theorem c6_none_iff_exhausted (cfg : Config) (questions : List Question)
    (s : Session) (pick : Nat) (hact : s.status = Status.active) :
    get_next_question cfg questions (some s) pick = none ↔
      cfg.max_questions ≤ s.current_question ∨
      ∀ q ∈ questions, q.difficulty ≤ s.difficulty_level + 1 → q ∈ s.questions_asked := by
  rw [← availableQuestions_eq_nil_iff]
  simp only [get_next_question, hact, if_true]
  cases hA : availableQuestions questions s with
  | nil => simp
  | cons a rest =>
    by_cases hmax : cfg.max_questions ≤ s.current_question
    · simp [hmax]
    · simp only [hmax, if_false, eq_self_iff_true, false_or]
      constructor
      · intro h
        split at h
        · exact absurd h (by simp)
        · split at h
          · exact absurd h (by simp)
          · exact absurd h (by simp)
      · intro h
        exact absurd h (by simp)

/-- Witness for C6: a fresh session against the real bank and default
configuration satisfies the equivalence (both sides false: a question is
returned). -/
theorem c6_none_iff_exhausted_witness :
    get_next_question defaultConfig load_questions (some (create_session "sid" 0)) 0 = none ↔
      defaultConfig.max_questions ≤ (create_session "sid" 0).current_question ∨
      ∀ q ∈ load_questions,
        q.difficulty ≤ (create_session "sid" 0).difficulty_level + 1 →
          q ∈ (create_session "sid" 0).questions_asked :=
  c6_none_iff_exhausted defaultConfig load_questions (create_session "sid" 0) 0 rfl

/-- C7: a successful `get_next_question` call appends exactly one question to
`questions_asked`, and that question was not already present there. -/
theorem c7_never_repeats_question (cfg : Config) (questions : List Question)
    (s : Session) (pick : Nat) (v : QuestionView) (s' : Session)
    (h : get_next_question cfg questions (some s) pick = some (v, s')) :
    ∃ q, q ∉ s.questions_asked ∧ s'.questions_asked = s.questions_asked ++ [q] := by
  obtain ⟨q, l, hq, _, heq⟩ := get_next_question_some h
  injection heq with hv hs'
  refine ⟨q, (mem_availableQuestions.mp hq).2.2, ?_⟩
  rw [hs']

/-- The concrete first draw of a fresh default-configuration session from the
real bank. -/
def firstDraw : QuestionView × Session :=
  ask defaultConfig (create_session "sid" 0) bankQ0

/-- Witness for C7: the first draw of a fresh session from the real bank. -/
theorem c7_never_repeats_question_witness :
    ∃ q, q ∉ (create_session "sid" 0).questions_asked ∧
      firstDraw.2.questions_asked = (create_session "sid" 0).questions_asked ++ [q] :=
  c7_never_repeats_question defaultConfig load_questions (create_session "sid" 0) 0
    firstDraw.1 firstDraw.2 rfl

/-- C8: the first `next_question` call on a freshly created session with the
default configuration deterministically (for every random pick) returns the
bank's first tier-1 question: the 20-point VLOOKUP vs INDEX-MATCH question,
which is also the first question of the bank. -/
theorem c8_first_question_is_vlookup (pick now : Nat) (sid : String) :
    ((get_next_question defaultConfig load_questions
        (some (create_session sid now)) pick).map
          fun p => (p.1, p.2.questions_asked)) =
      some ({ question_number := 1,
              question := "Explain the difference between VLOOKUP and INDEX-MATCH functions.",
              category := "Basic", difficulty := 1, total_questions := 5 }, [bankQ0]) ∧
    load_questions.head? = some bankQ0 ∧ bankQ0.difficulty = 1 ∧ bankQ0.points = 20 :=
  ⟨rfl, rfl, rfl, rfl⟩

/-- C9: for every question with positive point value and every response text,
the deterministic fallback evaluator's score lies in `[0, question.points]`. -/
theorem c9_fallback_score_in_range (q : Question) (response : String)
    (h : 0 < q.points) :
    0 ≤ (evaluate_response_fallback response q).score ∧
    (evaluate_response_fallback response q).score ≤ (q.points : Int) := by
  simp only [evaluate_response_fallback]
  constructor
  · omega
  · omega

/-- Witness for C9: the empty response against the 20-point VLOOKUP
question. -/
theorem c9_fallback_score_in_range_witness :
    0 < bankQ0.points ∧
    (0 ≤ (evaluate_response_fallback "" bankQ0).score ∧
      (evaluate_response_fallback "" bankQ0).score ≤ (bankQ0.points : Int)) :=
  ⟨by decide, c9_fallback_score_in_range bankQ0 "" (by decide)⟩

/-- C10 (implicit): for every question with positive point value and every
response text, the fallback evaluator's score is at least 1 — its base score
is `max 1 (word_count / 5)` capped at the points — so the fallback never
produces a zero score. -/
theorem c10_fallback_score_at_least_one (q : Question) (response : String)
    (h : 0 < q.points) :
    1 ≤ (evaluate_response_fallback response q).score := by
  simp only [evaluate_response_fallback]
  omega

/-- Witness for C10: the empty response against the 20-point VLOOKUP
question (word count 0, base score 1). -/
theorem c10_fallback_score_at_least_one_witness :
    0 < bankQ0.points ∧ 1 ≤ (evaluate_response_fallback "" bankQ0).score :=
  ⟨by decide, c10_fallback_score_at_least_one bankQ0 "" (by decide)⟩

/-- C1 (amended): for every stored session with at least one question asked
and a response whose word count is below the configured minimum,
`evaluate_response` returns the zero-score evaluation without consulting
either evaluator (the result is the same for every remote outcome `groq`) and
returns the session unchanged — so the evaluation is NOT appended to the
history and the cumulative score is NOT touched. -/
theorem c1_short_response_zero_score_unrecorded (cfg : Config) (s : Session)
    (response : String) (groq : Option Evaluation) (now : Nat)
    (hq : s.questions_asked ≠ [])
    (hlen : wordCount response < cfg.min_response_length) :
    evaluate_response cfg (some s) response groq now =
      some (shortEvaluation cfg, s) ∧
    (shortEvaluation cfg).score = 0 := by
  have hsome : s.questions_asked.getLast?.isSome := List.getLast?_isSome.mpr hq
  obtain ⟨cq, hcq⟩ := Option.isSome_iff_exists.mp hsome
  simp only [evaluate_response, hcq]
  rw [if_pos hlen]
  exact ⟨rfl, rfl⟩

/-- The session of a fresh default-configuration interview after the first
question has been asked (the state in which answers are submitted). -/
def askedSession : Session :=
  (ask defaultConfig (create_session "sid" 0) bankQ0).2

/-- Witness for C1: a two-word response against the session holding the
VLOOKUP question. -/
theorem c1_short_response_zero_score_unrecorded_witness :
    askedSession.questions_asked ≠ [] ∧
    wordCount "too short" < defaultConfig.min_response_length ∧
    (evaluate_response defaultConfig (some askedSession) "too short" none 7 =
        some (shortEvaluation defaultConfig, askedSession) ∧
      (shortEvaluation defaultConfig).score = 0) :=
  ⟨by decide, by decide,
    c1_short_response_zero_score_unrecorded defaultConfig askedSession
      "too short" none 7 (by decide) (by decide)⟩

/-- Counterexample for C1 as stated: the below-minimum response gets score 0,
but the session comes back identical — its answer history stays empty (the
zero evaluation is not appended) and its cumulative score stays 0. -/
theorem c1_short_response_counterexample :
    ((evaluate_response defaultConfig (some askedSession) "too short" none 7).map
        fun p => (p.1.score, p.2)) = some (0, askedSession) ∧
    askedSession.responses = [] ∧
    askedSession.total_score = 0 ∧
    ¬ ((evaluate_response defaultConfig (some askedSession) "too short" none 7).map
        fun p => p.2.responses.length) = some (askedSession.responses.length + 1) :=
  ⟨rfl, rfl, rfl, by decide⟩

/-- C3 (amended): `evaluate_response` rejects (returns `None`) exactly when
the session id is unknown or no question has been issued yet — the lifecycle
status is NOT checked — and a rejected call leaves the stored session
unchanged. -/
theorem c3_rejects_unknown_or_no_question (cfg : Config)
    (questions : List Question) (response : String) (groq : Option Evaluation)
    (now : Nat) :
    evaluate_response cfg none response groq now = none ∧
    (∀ s : Session,
      (evaluate_response cfg (some s) response groq now = none ↔
        s.questions_asked = [])) ∧
    (∀ s : Session, s.questions_asked = [] →
      applyOp cfg questions s (Op.answer response groq now) = s) := by
  refine ⟨rfl, fun s => ?_, fun s hnil => ?_⟩
  · cases hl : s.questions_asked.getLast? with
    | none =>
      have hnil : s.questions_asked = [] := by
        by_contra hne
        have hs := List.getLast?_isSome.mpr hne
        rw [hl] at hs
        exact absurd hs (by simp)
      simp [evaluate_response, hl, hnil]
    | some cq =>
      have hne : s.questions_asked ≠ [] := by
        intro hnil
        rw [hnil] at hl
        exact absurd hl (by simp)
      simp only [evaluate_response, hl]
      constructor
      · intro h
        split at h
        · exact absurd h (by simp)
        · exact absurd h (by simp)
      · intro h
        exact absurd h hne
  · have hl : s.questions_asked.getLast? = none := by
      rw [hnil]
      rfl
    simp [applyOp, evaluate_response, hl]

/-- Witness for C3 (amended) at concrete inputs: unknown id is rejected, a
fresh session with no question issued is rejected, and the rejected call is a
no-op on the session. -/
theorem c3_rejects_unknown_or_no_question_witness :
    evaluate_response defaultConfig none "some words here for length" none 0 = none ∧
    (evaluate_response defaultConfig (some (create_session "sid" 0))
        "some words here for length" none 0 = none ↔
      (create_session "sid" 0).questions_asked = []) ∧
    applyOp defaultConfig load_questions (create_session "sid" 0)
      (Op.answer "some words here for length" none 0) = create_session "sid" 0 :=
  ⟨(c3_rejects_unknown_or_no_question defaultConfig load_questions
      "some words here for length" none 0).1,
   (c3_rejects_unknown_or_no_question defaultConfig load_questions
      "some words here for length" none 0).2.1 (create_session "sid" 0),
   (c3_rejects_unknown_or_no_question defaultConfig load_questions
      "some words here for length" none 0).2.2 (create_session "sid" 0) rfl⟩

/-- The session holding the VLOOKUP question after its interview was
completed (status no longer active). -/
def completedAskedSession : Session :=
  { askedSession with status := Status.completed, completed_at := some 50 }

/-- Counterexample for C3 as stated: a session whose status is not active is
NOT rejected — `evaluate_response` evaluates the answer (score 5 via the
fallback), appends it to the history, and adds it to the cumulative score. -/
theorem c3_inactive_session_counterexample :
    completedAskedSession.status ≠ Status.active ∧
    completedAskedSession.total_score = 0 ∧
    completedAskedSession.responses = [] ∧
    ((evaluate_response defaultConfig (some completedAskedSession)
        "I would use vlookup lookup function here" none 99).map
      fun p => (p.1.score, p.2.total_score, p.2.responses.length)) =
        some (5, 5, 1) :=
  ⟨by decide, rfl, rfl, rfl⟩

/-- C2 (amended): `generate_final_report` recomputes the report from current
state and marks the session completed, but it stamps the completion time on
EVERY call: a repeat call at the same instant returns the identical report and
session, while a repeat call at any instant `now2` overwrites the completion
timestamp with `now2`. -/
theorem c2_report_restamps_completion_time (cfg : Config) (s : Session)
    (now now2 : Nat) (r : Report) (s' : Session)
    (h : generate_final_report cfg (some s) now = some (r, s')) :
    s'.status = Status.completed ∧
    s'.completed_at = some now ∧
    generate_final_report cfg (some s') now = some (r, s') ∧
    ((generate_final_report cfg (some s') now2).map fun p => p.2.completed_at) =
      some (some now2) := by
  obtain ⟨hs', hr⟩ := generate_final_report_some h
  subst hs'
  subst hr
  exact ⟨rfl, rfl, rfl, rfl⟩

/-- Witness for C2 (amended): first report of a fresh session at time 60,
repeat calls at times 60 and 120. -/
theorem c2_report_restamps_completion_time_witness :
    (completed_session (create_session "sid" 0) 60).status = Status.completed ∧
    (completed_session (create_session "sid" 0) 60).completed_at = some 60 ∧
    generate_final_report defaultConfig
        (some (completed_session (create_session "sid" 0) 60)) 60 =
      some (build_report (completed_session (create_session "sid" 0) 60),
        completed_session (create_session "sid" 0) 60) ∧
    ((generate_final_report defaultConfig
        (some (completed_session (create_session "sid" 0) 60)) 120).map
      fun p => p.2.completed_at) = some (some 120) :=
  c2_report_restamps_completion_time defaultConfig (create_session "sid" 0)
    60 120 (build_report (completed_session (create_session "sid" 0) 60))
    (completed_session (create_session "sid" 0) 60) rfl

/-- Counterexample for C2 as stated: generating the report at time 60 stamps
`completed_at = 60` and reports a 1-minute duration; a second call at time 120
re-stamps `completed_at = 120` and reports a 2-minute duration, so the second
call both updates the completion timestamp and returns a different report. -/
theorem c2_second_call_restamps_counterexample :
    ((generate_final_report defaultConfig (some (create_session "sid" 0)) 60).map
        fun p => (p.2.completed_at, p.1.duration_minutes)) = some (some 60, 1) ∧
    (((generate_final_report defaultConfig (some (create_session "sid" 0)) 60).bind
        fun p => generate_final_report defaultConfig (some p.2) 120).map
        fun p => (p.2.completed_at, p.1.duration_minutes)) = some (some 120, 2) ∧
    ¬ (((generate_final_report defaultConfig (some (create_session "sid" 0)) 60).bind
        fun p => generate_final_report defaultConfig (some p.2) 120).map
        fun p => (p.2.completed_at, p.1.duration_minutes)) =
      ((generate_final_report defaultConfig (some (create_session "sid" 0)) 60).map
        fun p => (p.2.completed_at, p.1.duration_minutes)) := by
  have h1 : ((generate_final_report defaultConfig (some (create_session "sid" 0)) 60).map
      fun p => (p.2.completed_at, p.1.duration_minutes)) = some (some 60, (1 : ℚ)) := by
    norm_num [generate_final_report, build_report, completed_session, create_session,
      calculate_duration, round1, Rat.floor]
  have h2 : (((generate_final_report defaultConfig (some (create_session "sid" 0)) 60).bind
      fun p => generate_final_report defaultConfig (some p.2) 120).map
      fun p => (p.2.completed_at, p.1.duration_minutes)) = some (some 120, (2 : ℚ)) := by
    norm_num [generate_final_report, build_report, completed_session, create_session,
      calculate_duration, round1, Rat.floor, Option.bind]
  refine ⟨h1, h2, ?_⟩
  rw [h1, h2]
  norm_num
